import Mathlib

/-!
Verification of the diagnostic-orchestration and recursive-localization
subsystem of `internal/tester/data.go` (rosetta-cli data tester).

The Go source is shallowly embedded:
* `HandleErr` becomes a pure function from the terminal error value, the
  abort-signal flag, the two counter reads, the recorded inactive failure
  and the historical-balance configuration flag to a `RunOutcome`.
* `recursiveOpSearch` becomes a well-founded recursive function over an
  environment of oracles (one per externally-determined event: temporary
  directory creation, database open/close, the abort signal, and the joint
  sync+reconcile result of one window).  Besides its result it returns a
  trace of resource events, so that storage-lifecycle and window-sequence
  properties are stated about observable behaviour.
* A refined model `recursiveOpSearchFull` additionally records the
  temporary-directory lifecycle with Go defer semantics (the deferred
  removal runs when its call returns, hence after the recursive call); an
  erasure lemma shows it agrees with the plain model.
* The reconciler construction of `recursiveOpSearch` (functional options
  applied to the SDK's defaults) and the bootstrap section of
  `InitializeData` are embedded as pure configuration functions.
-/

/-- Go constant `InactiveFailureLookbackWindow = 250` (data.go line 33). -/
def InactiveFailureLookbackWindow : Int := 250

/-- `types.BlockIdentifier`: index plus hash. -/
structure BlockIdentifier where
  index : Int
  hash : String
  deriving DecidableEq, Repr

/-- `reconciler.AccountCurrency`: the unit one reconciliation check operates on.
Account and currency identifiers are abstracted as strings. -/
structure AccountCurrency where
  account : String
  currency : String
  deriving DecidableEq, Repr

/-- The terminal error value handed to `HandleErr`: Go `nil`,
`context.Canceled` (clean boundary completion, see data.go line 253), or any
other (genuine) error. -/
inductive TermErr
  | noErr
  | canceled
  | genuine
  deriving DecidableEq, Repr

/-- Go condition `err == nil || err == context.Canceled` of data.go line 253. -/
def isCleanTermination : TermErr → Bool
  | .noErr => true
  | .canceled => true
  | .genuine => false

/-- The observable verdict produced by `HandleErr` (data.go lines 246-283).
`proceedToFindMissingOps` is the fall-through path on which `HandleErr`
returns without exiting and the caller runs `FindMissingOps`. -/
inductive RunOutcome
  | checkHalted
  | checkSucceeded
  | checkSucceededNoReconciliations
  | checkFailed
  | checkFailedDiagnosisUnavailable
  | proceedToFindMissingOps
  deriving DecidableEq, Repr

/-- The process exit status taken inside `HandleErr` on each outcome
(`none` on the fall-through path, where `HandleErr` itself does not exit). -/
def exitCode : RunOutcome → Option Nat
  | .checkHalted => some 1
  | .checkSucceeded => some 0
  | .checkSucceededNoReconciliations => some 0
  | .checkFailed => some 1
  | .checkFailedDiagnosisUnavailable => some 1
  | .proceedToFindMissingOps => none

/-- Embedding of `DataTester.HandleErr` (data.go lines 246-283).
`activeRead` and `inactiveRead` are the two `counterStorage.Get` results
(`Except.error` when the read fails, otherwise the big-integer value);
`inactiveFailure` is `reconcilerHandler.InactiveFailure`;
`historicalBalanceDisabled` is `config.Data.HistoricalBalanceDisabled`. -/
def HandleErr (signalReceived : Bool) (err : TermErr)
    (activeRead inactiveRead : Except Unit Int)
    (inactiveFailure : Option AccountCurrency)
    (historicalBalanceDisabled : Bool) : RunOutcome :=
  if signalReceived then .checkHalted
  else if isCleanTermination err then
    match activeRead, inactiveRead with
    | .ok a, .ok i =>
      if a + i ≠ 0 then .checkSucceeded else .checkSucceededNoReconciliations
    | _, _ => .checkSucceeded
  else if inactiveFailure.isNone then .checkFailed
  else if historicalBalanceDisabled then .checkFailedDiagnosisUnavailable
  else .proceedToFindMissingOps

/-- The outcome of one window's joint sync+reconcile run (`g.Wait()` at
data.go line 414): `clean` when the error is nil or `context.Canceled`, and
`failure` otherwise, carrying `reconcilerHandler.ActiveFailureBlock` (the
bound block of a recorded active failure, when one exists). -/
inductive AttemptResult
  | clean
  | failure (activeFailureBlock : Option BlockIdentifier)
  deriving DecidableEq, Repr

/-- The error values `recursiveOpSearch` can return (data.go lines 311-464):
temporary-directory creation failure, database open failure, database close
failure, the halted sentinel, the search-space-exhausted error (carrying the
two indices printed in its message), and the unable-to-find error. -/
inductive SearchErr
  | tempDirFailure
  | dbInitFailure
  | dbCloseFailure
  | halted
  | exhausted (newStart newEnd : Int)
  | unableToFind
  deriving DecidableEq, Repr

/-- Observable resource and control events of one localization run:
opening/closing the ephemeral Badger store, running the joint
sync+reconcile attempt over a window, and the `now searching newStart-newEnd`
log line emitted just before recursing. -/
inductive Ev
  | openStore
  | closeStore
  | attemptWin (startIndex endIndex : Int)
  | logSearching (newStart newEnd : Int)
  deriving DecidableEq, Repr

/-- Oracles for every externally determined event of one window's attempt,
indexed by the window `(startIndex, endIndex)`: whether
`utils.CreateTempDir`, `storage.NewBadgerStorage` and `localStore.Close`
succeed, the value of `*t.signalReceived` read after the joint wait, and the
joint sync+reconcile result. -/
structure SearchEnv where
  tempDirOk : Int → Int → Bool
  dbOpenOk : Int → Int → Bool
  closeOk : Int → Int → Bool
  signal : Int → Int → Bool
  attempt : Int → Int → AttemptResult

/-- Embedding of `DataTester.recursiveOpSearch` (data.go lines 311-465),
parameterized by `genesis = t.genesisBlock.Index` and the oracle environment.
Returns the Go function's result together with the trace of resource events.
Faithful details: the store is closed on every path after the joint wait and
before any return or recursion; the abort signal is checked after the close;
on a clean window the clamped `newStart = max(startIndex - 250, genesis)` and
`newEnd = endIndex - 250` are computed and used for the exhaustion check and
the log line, but the recursive call receives the unclamped
`startIndex - 250` (data.go lines 448-457). -/
def recursiveOpSearch (genesis : Int) (env : SearchEnv)
    (startIndex endIndex : Int) :
    Except SearchErr BlockIdentifier × List Ev :=
  if ¬ env.tempDirOk startIndex endIndex then (.error .tempDirFailure, [])
  else if ¬ env.dbOpenOk startIndex endIndex then (.error .dbInitFailure, [])
  else
    let pre : List Ev :=
      [.openStore, .attemptWin startIndex endIndex, .closeStore]
    if ¬ env.closeOk startIndex endIndex then (.error .dbCloseFailure, pre)
    else if env.signal startIndex endIndex then (.error .halted, pre)
    else
      match env.attempt startIndex endIndex with
      | .failure none => (.error .unableToFind, pre)
      | .failure (some b) => (.ok b, pre)
      | .clean =>
        if h : endIndex - InactiveFailureLookbackWindow ≤
            max (startIndex - InactiveFailureLookbackWindow) genesis then
          (.error (.exhausted
            (max (startIndex - InactiveFailureLookbackWindow) genesis)
            (endIndex - InactiveFailureLookbackWindow)), pre)
        else
          let rest := recursiveOpSearch genesis env
            (startIndex - InactiveFailureLookbackWindow)
            (endIndex - InactiveFailureLookbackWindow)
          (rest.1, pre ++
            .logSearching (max (startIndex - InactiveFailureLookbackWindow) genesis)
              (endIndex - InactiveFailureLookbackWindow) :: rest.2)
termination_by (endIndex - genesis).toNat
decreasing_by
  simp only [not_le] at h
  have hlt : genesis < endIndex - InactiveFailureLookbackWindow :=
    lt_of_le_of_lt (le_max_right (startIndex - InactiveFailureLookbackWindow) genesis) h
  simp only [InactiveFailureLookbackWindow] at hlt ⊢
  omega

/-- Embedding of `DataTester.FindMissingOps` (data.go lines 288-296): the
initial window runs from the inactive failure block's index minus the
lookback window up to that index. -/
def FindMissingOps (genesis : Int) (env : SearchEnv)
    (inactiveFailureBlockIndex : Int) :
    Except SearchErr BlockIdentifier × List Ev :=
  recursiveOpSearch genesis env
    (inactiveFailureBlockIndex - InactiveFailureLookbackWindow)
    inactiveFailureBlockIndex

/-- Environment in which every attempted window completes cleanly, all
provisioning succeeds and the abort signal is never raised. -/
def cleanEnv : SearchEnv :=
  ⟨fun _ _ => true, fun _ _ => true, fun _ _ => true,
   fun _ _ => false, fun _ _ => .clean⟩

/-- The windows actually attempted, in order, as read off a trace. -/
def attemptsOf : List Ev → List (Int × Int)
  | [] => []
  | .attemptWin s e :: l => (s, e) :: attemptsOf l
  | .openStore :: l => attemptsOf l
  | .closeStore :: l => attemptsOf l
  | .logSearching _ _ :: l => attemptsOf l

/-- Environment in which provisioning always succeeds, the signal is never
raised and every attempt ends in a genuine failure with no recorded
active-failure block. -/
def failNoBlockEnv : SearchEnv :=
  ⟨fun _ _ => true, fun _ _ => true, fun _ _ => true,
   fun _ _ => false, fun _ _ => .failure none⟩

/-- Environment in which provisioning always succeeds and the abort signal
is observed raised after every attempt. -/
def haltedEnv : SearchEnv :=
  ⟨fun _ _ => true, fun _ _ => true, fun _ _ => true,
   fun _ _ => true, fun _ _ => .clean⟩

/-- The reconciler configuration knobs set through the SDK's functional
options; `reconciler.New` applies each option in order to the SDK defaults,
which are kept abstract here. -/
structure ReconcilerOptions where
  activeConcurrency : Int
  inactiveConcurrency : Int
  lookupBalanceByBlock : Bool
  interestingAccounts : List AccountCurrency
  seenAccounts : List AccountCurrency
  debugLogging : Bool
  inactiveFrequency : Int
  deriving DecidableEq, Repr

/-- `reconciler.WithActiveConcurrency`. -/
def WithActiveConcurrency (n : Int) (c : ReconcilerOptions) :
    ReconcilerOptions :=
  { c with activeConcurrency := n }

/-- `reconciler.WithInactiveConcurrency`. -/
def WithInactiveConcurrency (n : Int) (c : ReconcilerOptions) :
    ReconcilerOptions :=
  { c with inactiveConcurrency := n }

/-- `reconciler.WithLookupBalanceByBlock`. -/
def WithLookupBalanceByBlock (b : Bool) (c : ReconcilerOptions) :
    ReconcilerOptions :=
  { c with lookupBalanceByBlock := b }

/-- `reconciler.WithInterestingAccounts`. -/
def WithInterestingAccounts (l : List AccountCurrency)
    (c : ReconcilerOptions) : ReconcilerOptions :=
  { c with interestingAccounts := l }

/-- `reconciler.WithSeenAccounts`. -/
def WithSeenAccounts (l : List AccountCurrency) (c : ReconcilerOptions) :
    ReconcilerOptions :=
  { c with seenAccounts := l }

/-- `reconciler.WithDebugLogging`. -/
def WithDebugLogging (b : Bool) (c : ReconcilerOptions) :
    ReconcilerOptions :=
  { c with debugLogging := b }

/-- `reconciler.WithInactiveFrequency`. -/
def WithInactiveFrequency (n : Int) (c : ReconcilerOptions) :
    ReconcilerOptions :=
  { c with inactiveFrequency := n }

/-- `reconciler.New`: apply the functional options in order to the defaults. -/
def reconcilerNew (defaults : ReconcilerOptions)
    (opts : List (ReconcilerOptions → ReconcilerOptions)) :
    ReconcilerOptions :=
  opts.foldl (fun c o => o c) defaults

/-- The halt flag of `processor.NewReconcilerHandler`. -/
structure ReconcilerHandlerConfig where
  haltOnReconciliationError : Bool
  deriving DecidableEq, Repr

/-- `processor.NewReconcilerHandler(logger, halt)`, keeping the halt flag. -/
def NewReconcilerHandler (halt : Bool) : ReconcilerHandlerConfig :=
  ⟨halt⟩

/-- The configuration fields of `config.Data` that reach either reconciler
construction. -/
structure DataConfig where
  historicalBalanceDisabled : Bool
  activeReconciliationConcurrency : Int
  inactiveReconciliationConcurrency : Int
  logReconciliations : Bool
  inactiveReconciliationFrequency : Int
  deriving DecidableEq, Repr

/-- A strict reconciliation instance as built by `recursiveOpSearch`:
its handler and its option-applied configuration. -/
structure DiagnosticReconciler where
  handler : ReconcilerHandlerConfig
  options : ReconcilerOptions
  deriving DecidableEq, Repr

/-- The strict reconciliation instance built inside `recursiveOpSearch`
(data.go lines 359-380): handler with halt-on-reconciliation-error true,
then `reconciler.New` with active concurrency 1, inactive concurrency 0,
balance lookup mirroring `!config.Data.HistoricalBalanceDisabled`, and the
single account-currency under diagnosis as the interesting accounts. -/
def buildDiagnosticReconciler (cfg : DataConfig)
    (accountCurrency : AccountCurrency) (defaults : ReconcilerOptions) :
    DiagnosticReconciler :=
  { handler := NewReconcilerHandler true
    options := reconcilerNew defaults
      [WithActiveConcurrency 1,
       WithInactiveConcurrency 0,
       WithLookupBalanceByBlock (!cfg.historicalBalanceDisabled),
       WithInterestingAccounts [accountCurrency]] }

/-- The top-level reconciler built by `InitializeData` (data.go lines
141-153), used to compare the historical-balance flag mirrored into the
diagnostic instance. -/
def buildDataReconciler (cfg : DataConfig)
    (interestingAccounts seenAccounts : List AccountCurrency)
    (defaults : ReconcilerOptions) : ReconcilerOptions :=
  reconcilerNew defaults
    [WithActiveConcurrency cfg.activeReconciliationConcurrency,
     WithInactiveConcurrency cfg.inactiveReconciliationConcurrency,
     WithLookupBalanceByBlock (!cfg.historicalBalanceDisabled),
     WithInterestingAccounts interestingAccounts,
     WithSeenAccounts seenAccounts,
     WithDebugLogging cfg.logReconciliations,
     WithInactiveFrequency cfg.inactiveReconciliationFrequency]

/-- The head-block lookup result inside the bootstrap section of
`InitializeData` (data.go line 173): the Go error is nil (a head block
exists), is `storage.ErrHeadBlockNotFound`, or is some other read error. -/
inductive HeadBlockRead
  | headFound
  | headNotFoundErr
  | otherErr
  deriving DecidableEq, Repr

/-- What the bootstrap section of `InitializeData` observably does:
whether `BootstrapBalances` ran to completion, whether a fatal
`log.Fatalf` exit happened, whether the informational
skipping-bootstrap message was printed via `log.Println`, and whether the
function returned nil instead of a `DataTester`. -/
structure InitBootstrapResult where
  performedBootstrap : Bool
  fatalExit : Bool
  loggedSkipMessage : Bool
  returnsNilTester : Bool
  deriving DecidableEq, Repr

/-- Embedding of the bootstrap section of `InitializeData` (data.go lines
171-187): when bootstrap balances are configured, the head block is looked
up; only on `ErrHeadBlockNotFound` is the bootstrap performed (fatally
exiting when it fails); on any other lookup result the function prints the
skip message and returns nil. -/
def initializeDataBootstrap (hasBootstrapBalances : Bool)
    (head : HeadBlockRead) (bootstrapOk : Bool) : InitBootstrapResult :=
  if hasBootstrapBalances then
    match head with
    | .headNotFoundErr =>
      if bootstrapOk then ⟨true, false, false, false⟩
      else ⟨false, true, false, false⟩
    | .headFound => ⟨false, false, true, true⟩
    | .otherErr => ⟨false, false, true, true⟩
  else ⟨false, false, false, false⟩

/-- Resource events of the refined localization model: the
temporary-directory lifecycle (`utils.CreateTempDir` at data.go line 323,
the deferred `utils.RemoveTempDir` registered at line 327) together with
the store, attempt and log events of `Ev`. -/
inductive REv
  | createTempDir
  | removeTempDir
  | openStore
  | closeStore
  | attemptWin (startIndex endIndex : Int)
  | logSearching (newStart newEnd : Int)
  deriving DecidableEq, Repr

/-- Refinement of `recursiveOpSearch` whose trace also records the
temporary-directory lifecycle with Go defer semantics: the
`RemoveTempDir` deferred at data.go line 327 runs when its own call
returns, which on the `return t.recursiveOpSearch(...)` path of data.go
line 448 is only after the recursive call itself has returned.  Control
flow and results are identical to `recursiveOpSearch`; see
`recursiveOpSearchFull_refines_recursiveOpSearch`. -/
def recursiveOpSearchFull (genesis : Int) (env : SearchEnv)
    (startIndex endIndex : Int) :
    Except SearchErr BlockIdentifier × List REv :=
  if ¬ env.tempDirOk startIndex endIndex then (.error .tempDirFailure, [])
  else if ¬ env.dbOpenOk startIndex endIndex then
    (.error .dbInitFailure, [.createTempDir, .removeTempDir])
  else if ¬ env.closeOk startIndex endIndex then
    (.error .dbCloseFailure,
     [.createTempDir, .openStore, .attemptWin startIndex endIndex,
      .closeStore, .removeTempDir])
  else if env.signal startIndex endIndex then
    (.error .halted,
     [.createTempDir, .openStore, .attemptWin startIndex endIndex,
      .closeStore, .removeTempDir])
  else
    match env.attempt startIndex endIndex with
    | .failure none =>
      (.error .unableToFind,
       [.createTempDir, .openStore, .attemptWin startIndex endIndex,
        .closeStore, .removeTempDir])
    | .failure (some b) =>
      (.ok b,
       [.createTempDir, .openStore, .attemptWin startIndex endIndex,
        .closeStore, .removeTempDir])
    | .clean =>
      if h : endIndex - InactiveFailureLookbackWindow ≤
          max (startIndex - InactiveFailureLookbackWindow) genesis then
        (.error (.exhausted
          (max (startIndex - InactiveFailureLookbackWindow) genesis)
          (endIndex - InactiveFailureLookbackWindow)),
         [.createTempDir, .openStore, .attemptWin startIndex endIndex,
          .closeStore, .removeTempDir])
      else
        let rest := recursiveOpSearchFull genesis env
          (startIndex - InactiveFailureLookbackWindow)
          (endIndex - InactiveFailureLookbackWindow)
        (rest.1,
         [.createTempDir, .openStore, .attemptWin startIndex endIndex,
          .closeStore,
          .logSearching (max (startIndex - InactiveFailureLookbackWindow)
            genesis) (endIndex - InactiveFailureLookbackWindow)] ++
          (rest.2 ++ [.removeTempDir]))
termination_by (endIndex - genesis).toNat
decreasing_by
  simp only [not_le] at h
  have hlt : genesis < endIndex - InactiveFailureLookbackWindow :=
    lt_of_le_of_lt (le_max_right (startIndex - InactiveFailureLookbackWindow)
      genesis) h
  simp only [InactiveFailureLookbackWindow] at hlt ⊢
  omega

/-- Signed effect of one event on the count of open ephemeral stores. -/
def storeDelta : REv → Int
  | .createTempDir => 0
  | .removeTempDir => 0
  | .openStore => 1
  | .closeStore => -1
  | .attemptWin _ _ => 0
  | .logSearching _ _ => 0

/-- Signed effect of one event on the count of live temporary directories. -/
def dirDelta : REv → Int
  | .createTempDir => 1
  | .removeTempDir => -1
  | .openStore => 0
  | .closeStore => 0
  | .attemptWin _ _ => 0
  | .logSearching _ _ => 0

/-- Peak running total of the per-event effect `f` along a trace, starting
from the running total `c`. -/
def peakCount (f : REv → Int) : Int → List REv → Int
  | c, [] => c
  | c, e :: l => max c (peakCount f (c + f e) l)

/-- Final running total of the per-event effect `f` along a trace. -/
def netCount (f : REv → Int) (l : List REv) : Int := (l.map f).sum

/-- Erase the temporary-directory events of a refined trace, keeping the
store, attempt and log events of the plain model. -/
def eraseDirEvents : List REv → List Ev
  | [] => []
  | .createTempDir :: l => eraseDirEvents l
  | .removeTempDir :: l => eraseDirEvents l
  | .openStore :: l => .openStore :: eraseDirEvents l
  | .closeStore :: l => .closeStore :: eraseDirEvents l
  | .attemptWin a b :: l => .attemptWin a b :: eraseDirEvents l
  | .logSearching a b :: l => .logSearching a b :: eraseDirEvents l

/-- C3: with no abort signal, a nil terminal error or a clean boundary
completion (`context.Canceled`) is classified as a passing run with success
exit status; when both counter reads succeed, a nonzero active+inactive sum
reports plain success and a zero sum reports success with the
no-reconciliations warning. -/
theorem handleErr_clean_completion_classification (e : TermErr)
    (he : isCleanTermination e = true) (a i : Int)
    (inact : Option AccountCurrency) (hist : Bool) :
    HandleErr false e (.ok a) (.ok i) inact hist =
      (if a + i ≠ 0 then .checkSucceeded else .checkSucceededNoReconciliations) ∧
    exitCode (HandleErr false e (.ok a) (.ok i) inact hist) = some 0 := by
  constructor
  · simp [HandleErr, he]
  · by_cases h : a + i = 0 <;> simp [HandleErr, he, h, exitCode]

/-- C3 witness: a clean boundary completion with both counters zero is the
pass-with-warning scenario, with success exit status. -/
theorem handleErr_clean_completion_classification_witness :
    HandleErr false .canceled (.ok 0) (.ok 0) none false =
      .checkSucceededNoReconciliations ∧
    exitCode (HandleErr false .canceled (.ok 0) (.ok 0) none false) = some 0 := by
  have h := handleErr_clean_completion_classification .canceled rfl 0 0 none false
  exact ⟨by simpa using h.1, h.2⟩

/-- C5: a genuine failure with an inactive failure recorded but historical
balance lookup disabled is classified as failure with diagnosis unavailable,
exits with non-zero status, and never reaches the localizer fall-through,
whatever the counter reads hold. -/
theorem handleErr_diagnosis_unavailable (ra ri : Except Unit Int)
    (ac : AccountCurrency) :
    HandleErr false .genuine ra ri (some ac) true =
      .checkFailedDiagnosisUnavailable ∧
    exitCode (HandleErr false .genuine ra ri (some ac) true) = some 1 ∧
    HandleErr false .genuine ra ri (some ac) true ≠ .proceedToFindMissingOps := by
  refine ⟨rfl, rfl, ?_⟩
  simp [HandleErr, isCleanTermination, exitCode]

/-- C10: when classifying a clean completion, a failed read of either the
active or the inactive reconciliation counter yields the plain-success
outcome with success exit status — never the zero-reconciliations warning and
never a failure — for both the nil-error and the canceled-boundary case. -/
theorem handleErr_counter_read_error_reports_plain_success
    (r : Except Unit Int) (u : Unit) (inact : Option AccountCurrency)
    (hist : Bool) :
    HandleErr false .noErr (.error u) r inact hist = .checkSucceeded ∧
    HandleErr false .noErr r (.error u) inact hist = .checkSucceeded ∧
    HandleErr false .canceled (.error u) r inact hist = .checkSucceeded ∧
    HandleErr false .canceled r (.error u) inact hist = .checkSucceeded ∧
    exitCode RunOutcome.checkSucceeded = some 0 ∧
    RunOutcome.checkSucceeded ≠ .checkSucceededNoReconciliations := by
  rcases r with u' | v <;>
    simp [HandleErr, isCleanTermination, exitCode]

lemma recursiveOpSearch_exhaust_step (g : Int) (env : SearchEnv) (s e : Int)
    (hT : env.tempDirOk s e = true) (hD : env.dbOpenOk s e = true)
    (hC : env.closeOk s e = true) (hS : env.signal s e = false)
    (hA : env.attempt s e = .clean)
    (hcond : e - InactiveFailureLookbackWindow ≤
      max (s - InactiveFailureLookbackWindow) g) :
    recursiveOpSearch g env s e =
      (.error (.exhausted (max (s - InactiveFailureLookbackWindow) g)
        (e - InactiveFailureLookbackWindow)),
       [.openStore, .attemptWin s e, .closeStore]) := by
  rw [recursiveOpSearch.eq_def]
  simp [hT, hD, hC, hS, hA, hcond]

lemma recursiveOpSearch_recurse_step (g : Int) (env : SearchEnv) (s e : Int)
    (hT : env.tempDirOk s e = true) (hD : env.dbOpenOk s e = true)
    (hC : env.closeOk s e = true) (hS : env.signal s e = false)
    (hA : env.attempt s e = .clean)
    (hcond : ¬ (e - InactiveFailureLookbackWindow ≤
      max (s - InactiveFailureLookbackWindow) g)) :
    recursiveOpSearch g env s e =
      ((recursiveOpSearch g env (s - InactiveFailureLookbackWindow)
          (e - InactiveFailureLookbackWindow)).1,
        [.openStore, .attemptWin s e, .closeStore,
          .logSearching (max (s - InactiveFailureLookbackWindow) g)
            (e - InactiveFailureLookbackWindow)] ++
          (recursiveOpSearch g env (s - InactiveFailureLookbackWindow)
            (e - InactiveFailureLookbackWindow)).2) := by
  rw [recursiveOpSearch.eq_def]
  simp [hT, hD, hC, hS, hA, hcond]

lemma recursiveOpSearch_halted_step (g : Int) (env : SearchEnv) (s e : Int)
    (hT : env.tempDirOk s e = true) (hD : env.dbOpenOk s e = true)
    (hC : env.closeOk s e = true) (hS : env.signal s e = true) :
    recursiveOpSearch g env s e =
      (.error .halted, [.openStore, .attemptWin s e, .closeStore]) := by
  rw [recursiveOpSearch.eq_def]
  simp [hT, hD, hC, hS]

lemma recursiveOpSearch_failure_step (g : Int) (env : SearchEnv) (s e : Int)
    (ob : Option BlockIdentifier)
    (hT : env.tempDirOk s e = true) (hD : env.dbOpenOk s e = true)
    (hC : env.closeOk s e = true) (hS : env.signal s e = false)
    (hA : env.attempt s e = .failure ob) :
    recursiveOpSearch g env s e =
      ((match ob with
        | some b => .ok b
        | none => Except.error SearchErr.unableToFind),
       [.openStore, .attemptWin s e, .closeStore]) := by
  rw [recursiveOpSearch.eq_def]
  rcases ob with _ | b <;> simp [hT, hD, hC, hS, hA]

lemma recursiveOpSearch_tempDir_fail_step (g : Int) (env : SearchEnv)
    (s e : Int) (hT : env.tempDirOk s e = false) :
    recursiveOpSearch g env s e = (.error .tempDirFailure, []) := by
  rw [recursiveOpSearch.eq_def]
  simp [hT]

lemma recursiveOpSearch_dbOpen_fail_step (g : Int) (env : SearchEnv)
    (s e : Int) (hT : env.tempDirOk s e = true)
    (hD : env.dbOpenOk s e = false) :
    recursiveOpSearch g env s e = (.error .dbInitFailure, []) := by
  rw [recursiveOpSearch.eq_def]
  simp [hT, hD]

lemma recursiveOpSearch_close_fail_step (g : Int) (env : SearchEnv)
    (s e : Int) (hT : env.tempDirOk s e = true)
    (hD : env.dbOpenOk s e = true) (hC : env.closeOk s e = false) :
    recursiveOpSearch g env s e =
      (.error .dbCloseFailure, [.openStore, .attemptWin s e, .closeStore]) := by
  rw [recursiveOpSearch.eq_def]
  simp [hT, hD, hC]

/-- C1: from an inactive failure first observed at block 1000 with genesis 0
and only clean attempts, the windows attempted are 750-1000, 500-750,
250-500 (then 0-250) as the spec says; but the recursion does not use the
clamped window: with an inactive failure at block 300, after the clean
window 50-300 the code logs the clamped next window 0-50 yet recurses over
the unclamped window from -200 to 50, which differs from the clamped
window it computed. -/
theorem findMissingOps_window_sequence_unclamped :
    attemptsOf (FindMissingOps 0 cleanEnv 1000).2 =
      [(750, 1000), (500, 750), (250, 500), (0, 250)] ∧
    (FindMissingOps 0 cleanEnv 300).2 =
      [.openStore, .attemptWin 50 300, .closeStore, .logSearching 0 50,
       .openStore, .attemptWin (-200) 50, .closeStore] ∧
    ((-200 : Int), (50 : Int)) ≠ (max ((50 : Int) - 250) 0, (50 : Int)) := by
  refine ⟨?_, ?_, by decide⟩
  · rw [FindMissingOps]
    norm_num [InactiveFailureLookbackWindow]
    rw [recursiveOpSearch_recurse_step 0 cleanEnv 750 1000 rfl rfl rfl rfl rfl
      (by norm_num [InactiveFailureLookbackWindow])]
    norm_num [InactiveFailureLookbackWindow]
    rw [recursiveOpSearch_recurse_step 0 cleanEnv 500 750 rfl rfl rfl rfl rfl
      (by norm_num [InactiveFailureLookbackWindow])]
    norm_num [InactiveFailureLookbackWindow]
    rw [recursiveOpSearch_recurse_step 0 cleanEnv 250 500 rfl rfl rfl rfl rfl
      (by norm_num [InactiveFailureLookbackWindow])]
    norm_num [InactiveFailureLookbackWindow]
    rw [recursiveOpSearch_exhaust_step 0 cleanEnv 0 250 rfl rfl rfl rfl rfl
      (by norm_num [InactiveFailureLookbackWindow])]
    norm_num [attemptsOf]
  · rw [FindMissingOps]
    norm_num [InactiveFailureLookbackWindow]
    rw [recursiveOpSearch_recurse_step 0 cleanEnv 50 300 rfl rfl rfl rfl rfl
      (by norm_num [InactiveFailureLookbackWindow])]
    norm_num [InactiveFailureLookbackWindow]
    rw [recursiveOpSearch_exhaust_step 0 cleanEnv (-200) 50 rfl rfl rfl rfl rfl
      (by norm_num [InactiveFailureLookbackWindow, max_def])]

/-- C2: when every attempted window completes cleanly (and provisioning
always succeeds and no abort signal is raised), the recursive search
terminates and returns the search-space-exhausted error, never a block. -/
theorem recursiveOpSearch_clean_run_exhausts (g : Int) (env : SearchEnv)
    (hT : ∀ a b, env.tempDirOk a b = true)
    (hD : ∀ a b, env.dbOpenOk a b = true)
    (hC : ∀ a b, env.closeOk a b = true)
    (hS : ∀ a b, env.signal a b = false)
    (hA : ∀ a b, env.attempt a b = .clean)
    (s e : Int) :
    (∃ ns ne, (recursiveOpSearch g env s e).1 =
      .error (.exhausted ns ne)) ∧
    ∀ b, (recursiveOpSearch g env s e).1 ≠ .ok b := by
  have main : ∃ ns ne, (recursiveOpSearch g env s e).1 =
      .error (.exhausted ns ne) := by
    induction s, e using recursiveOpSearch.induct g env with
    | case1 s e h1 => exact absurd (hT s e) h1
    | case2 s e h1 h2 => exact absurd (hD s e) h2
    | case3 s e h1 h2 h3 => exact absurd (hC s e) h3
    | case4 s e h1 h2 h3 h4 => simp [hS s e] at h4
    | case5 s e h1 h2 h3 h4 h5 => simp [hA s e] at h5
    | case6 s e h1 h2 h3 h4 b h5 => simp [hA s e] at h5
    | case7 s e h1 h2 h3 h4 h5 h6 =>
        rw [recursiveOpSearch_exhaust_step g env s e (hT s e) (hD s e)
          (hC s e) (hS s e) (hA s e) h6]
        exact ⟨_, _, rfl⟩
    | case8 s e h1 h2 h3 h4 h5 h6 ih =>
        rw [recursiveOpSearch_recurse_step g env s e (hT s e) (hD s e)
          (hC s e) (hS s e) (hA s e) h6]
        exact ih
  refine ⟨main, ?_⟩
  obtain ⟨ns, ne, hres⟩ := main
  intro b hb
  rw [hres] at hb
  exact Except.noConfusion hb

/-- C2 witness: with genesis 0 and initial window 750-1000, an all-clean
run ends in the search-space-exhausted error. -/
theorem recursiveOpSearch_clean_run_exhausts_witness :
    ∃ ns ne, (recursiveOpSearch 0 cleanEnv 750 1000).1 =
      .error (.exhausted ns ne) :=
  (recursiveOpSearch_clean_run_exhausts 0 cleanEnv (fun _ _ => rfl)
    (fun _ _ => rfl) (fun _ _ => rfl) (fun _ _ => rfl) (fun _ _ => rfl)
    750 1000).1

/-- C4: a raised abort signal short-circuits everything: `HandleErr`
reports halted with non-zero exit status whatever the other inputs are, and
`recursiveOpSearch`, observing the signal after its joint tasks settle,
returns the halted error after exactly one attempt — it never recurses,
never returns a block and never returns the exhausted result. -/
theorem halted_short_circuits_classification_and_search :
    (∀ (te : TermErr) (ra ri : Except Unit Int)
        (inact : Option AccountCurrency) (hist : Bool),
      HandleErr true te ra ri inact hist = .checkHalted ∧
      exitCode (HandleErr true te ra ri inact hist) = some 1) ∧
    (∀ (g : Int) (env : SearchEnv) (s e : Int),
      env.tempDirOk s e = true → env.dbOpenOk s e = true →
      env.closeOk s e = true → env.signal s e = true →
      (recursiveOpSearch g env s e).1 = .error .halted ∧
      attemptsOf (recursiveOpSearch g env s e).2 = [(s, e)] ∧
      (∀ b, (recursiveOpSearch g env s e).1 ≠ .ok b) ∧
      (∀ a b, (recursiveOpSearch g env s e).1 ≠ .error (.exhausted a b))) := by
  constructor
  · intro te ra ri inact hist
    exact ⟨rfl, rfl⟩
  · intro g env s e hT hD hC hS
    rw [recursiveOpSearch_halted_step g env s e hT hD hC hS]
    refine ⟨rfl, by simp [attemptsOf], fun b hb => ?_, fun a b hb => ?_⟩
    · exact Except.noConfusion hb
    · simp at hb

/-- C4 witness: with the signal raised, `HandleErr` reports halted and the
search over window 750-1000 returns the halted error. -/
theorem halted_short_circuits_witness :
    HandleErr true .genuine (.ok 0) (.ok 0) none false = .checkHalted ∧
    (recursiveOpSearch 0 haltedEnv 750 1000).1 = .error .halted :=
  ⟨(halted_short_circuits_classification_and_search.1 .genuine (.ok 0)
      (.ok 0) none false).1,
   (halted_short_circuits_classification_and_search.2 0 haltedEnv 750 1000
      rfl rfl rfl rfl).1⟩

/-- C6: when the joint result of a window is a genuine failure and no abort
signal is raised, the search returns the recorded active-failure block when
one exists and otherwise the unable-to-find error, an error distinct from
both the halted and the exhausted results. -/
theorem recursiveOpSearch_genuine_failure_outcomes (g : Int)
    (env : SearchEnv) (s e : Int) (ob : Option BlockIdentifier)
    (hT : env.tempDirOk s e = true) (hD : env.dbOpenOk s e = true)
    (hC : env.closeOk s e = true) (hS : env.signal s e = false)
    (hA : env.attempt s e = .failure ob) :
    (recursiveOpSearch g env s e).1 =
      (match ob with
        | some b => .ok b
        | none => Except.error SearchErr.unableToFind) ∧
    SearchErr.unableToFind ≠ SearchErr.halted ∧
    (∀ a b, SearchErr.unableToFind ≠ SearchErr.exhausted a b) := by
  refine ⟨?_, by decide, fun a b hb => SearchErr.noConfusion hb⟩
  rw [recursiveOpSearch_failure_step g env s e ob hT hD hC hS hA]

/-- C6 witness: a genuine failure with no recorded active-failure block over
window 750-1000 yields the unable-to-find error. -/
theorem recursiveOpSearch_genuine_failure_outcomes_witness :
    (recursiveOpSearch 0 failNoBlockEnv 750 1000).1 =
      .error .unableToFind :=
  (recursiveOpSearch_genuine_failure_outcomes 0 failNoBlockEnv 750 1000
    none rfl rfl rfl rfl rfl).1

/-- C7: every strict reconciliation instance built by `recursiveOpSearch`
has active concurrency exactly 1, inactive concurrency exactly 0, exactly
the one account-currency under diagnosis as interesting accounts,
halt-on-reconciliation-error true, and the same historical-balance-by-block
flag as the top-level reconciler, whatever the SDK defaults are. -/
theorem diagnostic_reconciler_configuration (cfg : DataConfig)
    (ac : AccountCurrency) (defaults : ReconcilerOptions)
    (interesting seen : List AccountCurrency) :
    (buildDiagnosticReconciler cfg ac defaults).options.activeConcurrency = 1 ∧
    (buildDiagnosticReconciler cfg ac defaults).options.inactiveConcurrency = 0 ∧
    (buildDiagnosticReconciler cfg ac defaults).options.interestingAccounts = [ac] ∧
    (buildDiagnosticReconciler cfg ac defaults).handler.haltOnReconciliationError = true ∧
    (buildDiagnosticReconciler cfg ac defaults).options.lookupBalanceByBlock =
      (buildDataReconciler cfg interesting seen defaults).lookupBalanceByBlock :=
  ⟨rfl, rfl, rfl, rfl, rfl⟩

/-- C9 counterexample: with bootstrap balances configured and a head block
already recorded, `InitializeData` raises no error at all — no fatal exit
and no bootstrap — it only prints the informational skip message and
returns a nil tester. -/
theorem bootstrap_after_sync_not_an_error_counterexample :
    (initializeDataBootstrap true .headFound true).fatalExit = false ∧
    (initializeDataBootstrap true .headFound true).performedBootstrap = false ∧
    (initializeDataBootstrap true .headFound true).loggedSkipMessage = true ∧
    (initializeDataBootstrap true .headFound true).returnsNilTester = true := by
  decide

/-- C9 amended: if bootstrap balances are configured and a head block
exists, `InitializeData` logs the skip message and aborts initialization by
returning a nil tester — it does not report an error — and the bootstrap is
performed only when the head-block lookup fails with head-block-not-found. -/
theorem initializeData_bootstrap_only_before_sync (head : HeadBlockRead)
    (ok : Bool) :
    ((initializeDataBootstrap true head ok).performedBootstrap = true →
      head = .headNotFoundErr) ∧
    (head ≠ .headNotFoundErr →
      initializeDataBootstrap true head ok = ⟨false, false, true, true⟩) ∧
    (∀ c, (initializeDataBootstrap c .headFound ok).performedBootstrap
      = false) := by
  rcases head with _ | _ | _ <;> rcases ok with _ | _ <;>
    exact ⟨by simp [initializeDataBootstrap], by simp [initializeDataBootstrap],
      fun c => by rcases c with _ | _ <;> simp [initializeDataBootstrap]⟩

/-- C9 witness: a head block exists, so the result is logged-skip plus nil
return, with no bootstrap and no error. -/
theorem initializeData_bootstrap_only_before_sync_witness :
    HeadBlockRead.headFound ≠ HeadBlockRead.headNotFoundErr ∧
    initializeDataBootstrap true .headFound true = ⟨false, false, true, true⟩ :=
  ⟨by decide,
   (initializeData_bootstrap_only_before_sync .headFound true).2.1 (by decide)⟩

lemma recursiveOpSearchFull_tempDir_fail_step (g : Int) (env : SearchEnv)
    (s e : Int) (hT : env.tempDirOk s e = false) :
    recursiveOpSearchFull g env s e = (.error .tempDirFailure, []) := by
  rw [recursiveOpSearchFull.eq_def]
  simp [hT]

lemma recursiveOpSearchFull_dbOpen_fail_step (g : Int) (env : SearchEnv)
    (s e : Int) (hT : env.tempDirOk s e = true)
    (hD : env.dbOpenOk s e = false) :
    recursiveOpSearchFull g env s e =
      (.error .dbInitFailure, [.createTempDir, .removeTempDir]) := by
  rw [recursiveOpSearchFull.eq_def]
  simp [hT, hD]

lemma recursiveOpSearchFull_close_fail_step (g : Int) (env : SearchEnv)
    (s e : Int) (hT : env.tempDirOk s e = true)
    (hD : env.dbOpenOk s e = true) (hC : env.closeOk s e = false) :
    recursiveOpSearchFull g env s e =
      (.error .dbCloseFailure,
       [.createTempDir, .openStore, .attemptWin s e, .closeStore,
        .removeTempDir]) := by
  rw [recursiveOpSearchFull.eq_def]
  simp [hT, hD, hC]

lemma recursiveOpSearchFull_halted_step (g : Int) (env : SearchEnv)
    (s e : Int) (hT : env.tempDirOk s e = true)
    (hD : env.dbOpenOk s e = true) (hC : env.closeOk s e = true)
    (hS : env.signal s e = true) :
    recursiveOpSearchFull g env s e =
      (.error .halted,
       [.createTempDir, .openStore, .attemptWin s e, .closeStore,
        .removeTempDir]) := by
  rw [recursiveOpSearchFull.eq_def]
  simp [hT, hD, hC, hS]

lemma recursiveOpSearchFull_failure_step (g : Int) (env : SearchEnv)
    (s e : Int) (ob : Option BlockIdentifier)
    (hT : env.tempDirOk s e = true) (hD : env.dbOpenOk s e = true)
    (hC : env.closeOk s e = true) (hS : env.signal s e = false)
    (hA : env.attempt s e = .failure ob) :
    recursiveOpSearchFull g env s e =
      ((match ob with
        | some b => .ok b
        | none => Except.error SearchErr.unableToFind),
       [.createTempDir, .openStore, .attemptWin s e, .closeStore,
        .removeTempDir]) := by
  rw [recursiveOpSearchFull.eq_def]
  rcases ob with _ | b <;> simp [hT, hD, hC, hS, hA]

lemma recursiveOpSearchFull_exhaust_step (g : Int) (env : SearchEnv)
    (s e : Int)
    (hT : env.tempDirOk s e = true) (hD : env.dbOpenOk s e = true)
    (hC : env.closeOk s e = true) (hS : env.signal s e = false)
    (hA : env.attempt s e = .clean)
    (hcond : e - InactiveFailureLookbackWindow ≤
      max (s - InactiveFailureLookbackWindow) g) :
    recursiveOpSearchFull g env s e =
      (.error (.exhausted (max (s - InactiveFailureLookbackWindow) g)
        (e - InactiveFailureLookbackWindow)),
       [.createTempDir, .openStore, .attemptWin s e, .closeStore,
        .removeTempDir]) := by
  rw [recursiveOpSearchFull.eq_def]
  simp [hT, hD, hC, hS, hA, hcond]

lemma recursiveOpSearchFull_recurse_step (g : Int) (env : SearchEnv)
    (s e : Int)
    (hT : env.tempDirOk s e = true) (hD : env.dbOpenOk s e = true)
    (hC : env.closeOk s e = true) (hS : env.signal s e = false)
    (hA : env.attempt s e = .clean)
    (hcond : ¬ (e - InactiveFailureLookbackWindow ≤
      max (s - InactiveFailureLookbackWindow) g)) :
    recursiveOpSearchFull g env s e =
      ((recursiveOpSearchFull g env (s - InactiveFailureLookbackWindow)
          (e - InactiveFailureLookbackWindow)).1,
        [.createTempDir, .openStore, .attemptWin s e, .closeStore,
          .logSearching (max (s - InactiveFailureLookbackWindow) g)
            (e - InactiveFailureLookbackWindow)] ++
          ((recursiveOpSearchFull g env (s - InactiveFailureLookbackWindow)
            (e - InactiveFailureLookbackWindow)).2 ++ [.removeTempDir])) := by
  rw [recursiveOpSearchFull.eq_def]
  simp [hT, hD, hC, hS, hA, hcond]

lemma le_peakCount (f : REv → Int) (c : Int) (l : List REv) :
    c ≤ peakCount f c l := by
  induction l generalizing c with
  | nil => simp [peakCount]
  | cons ev l ih =>
      simp only [peakCount]
      exact le_max_left _ _

lemma peakCount_append (f : REv → Int) (c : Int) (l m : List REv) :
    peakCount f c (l ++ m) =
      max (peakCount f c l) (peakCount f (c + netCount f l) m) := by
  induction l generalizing c with
  | nil =>
      simp only [List.nil_append, peakCount, netCount, List.map_nil,
        List.sum_nil, add_zero]
      exact (max_eq_right (le_peakCount f c m)).symm
  | cons ev l ih =>
      simp only [List.cons_append, peakCount, netCount, List.map_cons,
        List.sum_cons, List.append_eq]
      rw [ih]
      simp only [netCount]
      rw [← add_assoc, ← max_assoc]

lemma netCount_append (f : REv → Int) (l m : List REv) :
    netCount f (l ++ m) = netCount f l + netCount f m := by
  simp [netCount]

lemma eraseDirEvents_append (l m : List REv) :
    eraseDirEvents (l ++ m) = eraseDirEvents l ++ eraseDirEvents m := by
  induction l with
  | nil => simp [eraseDirEvents]
  | cons ev l ih => cases ev <;> simp [eraseDirEvents, ih]

lemma recursiveOpSearchFull_refines_recursiveOpSearch (g : Int)
    (env : SearchEnv) (s e : Int) :
    (recursiveOpSearchFull g env s e).1 = (recursiveOpSearch g env s e).1 ∧
    eraseDirEvents (recursiveOpSearchFull g env s e).2 =
      (recursiveOpSearch g env s e).2 := by
  induction s, e using recursiveOpSearchFull.induct g env with
  | case1 s e h1 =>
      rw [recursiveOpSearchFull_tempDir_fail_step g env s e
        (by simpa using h1),
        recursiveOpSearch_tempDir_fail_step g env s e (by simpa using h1)]
      exact ⟨rfl, rfl⟩
  | case2 s e h1 h2 =>
      rw [recursiveOpSearchFull_dbOpen_fail_step g env s e
        (by simpa using h1) (by simpa using h2),
        recursiveOpSearch_dbOpen_fail_step g env s e (by simpa using h1)
        (by simpa using h2)]
      exact ⟨rfl, rfl⟩
  | case3 s e h1 h2 h3 =>
      rw [recursiveOpSearchFull_close_fail_step g env s e
        (by simpa using h1) (by simpa using h2) (by simpa using h3),
        recursiveOpSearch_close_fail_step g env s e (by simpa using h1)
        (by simpa using h2) (by simpa using h3)]
      exact ⟨rfl, rfl⟩
  | case4 s e h1 h2 h3 h4 =>
      rw [recursiveOpSearchFull_halted_step g env s e (by simpa using h1)
        (by simpa using h2) (by simpa using h3) h4,
        recursiveOpSearch_halted_step g env s e (by simpa using h1)
        (by simpa using h2) (by simpa using h3) h4]
      exact ⟨rfl, rfl⟩
  | case5 s e h1 h2 h3 h4 h5 =>
      rw [recursiveOpSearchFull_failure_step g env s e none
        (by simpa using h1) (by simpa using h2) (by simpa using h3)
        (by simpa using h4) h5,
        recursiveOpSearch_failure_step g env s e none (by simpa using h1)
        (by simpa using h2) (by simpa using h3) (by simpa using h4) h5]
      exact ⟨rfl, rfl⟩
  | case6 s e h1 h2 h3 h4 b h5 =>
      rw [recursiveOpSearchFull_failure_step g env s e (some b)
        (by simpa using h1) (by simpa using h2) (by simpa using h3)
        (by simpa using h4) h5,
        recursiveOpSearch_failure_step g env s e (some b)
        (by simpa using h1) (by simpa using h2) (by simpa using h3)
        (by simpa using h4) h5]
      exact ⟨rfl, rfl⟩
  | case7 s e h1 h2 h3 h4 h5 h6 =>
      rw [recursiveOpSearchFull_exhaust_step g env s e (by simpa using h1)
        (by simpa using h2) (by simpa using h3) (by simpa using h4) h5 h6,
        recursiveOpSearch_exhaust_step g env s e (by simpa using h1)
        (by simpa using h2) (by simpa using h3) (by simpa using h4) h5 h6]
      exact ⟨rfl, rfl⟩
  | case8 s e h1 h2 h3 h4 h5 h6 ih =>
      rw [recursiveOpSearchFull_recurse_step g env s e (by simpa using h1)
        (by simpa using h2) (by simpa using h3) (by simpa using h4) h5 h6,
        recursiveOpSearch_recurse_step g env s e (by simpa using h1)
        (by simpa using h2) (by simpa using h3) (by simpa using h4) h5 h6]
      refine ⟨ih.1, ?_⟩
      simp [eraseDirEvents_append, eraseDirEvents, ih.2]

lemma peakCount_store_terminal (s e : Int) :
    peakCount storeDelta 0 [REv.createTempDir, REv.openStore,
      REv.attemptWin s e, REv.closeStore, REv.removeTempDir] ≤ 1 := by
  simp [peakCount, storeDelta]

lemma netCount_store_terminal (s e : Int) :
    netCount storeDelta [REv.createTempDir, REv.openStore,
      REv.attemptWin s e, REv.closeStore, REv.removeTempDir] = 0 := by
  simp [netCount, storeDelta]

lemma netCount_dir_terminal (s e : Int) :
    netCount dirDelta [REv.createTempDir, REv.openStore,
      REv.attemptWin s e, REv.closeStore, REv.removeTempDir] = 0 := by
  simp [netCount, dirDelta]

lemma peakCount_store_shape (s e a b : Int) (l : List REv)
    (hp : peakCount storeDelta 0 l ≤ 1) (hn : netCount storeDelta l = 0) :
    peakCount storeDelta 0
      ([REv.createTempDir, REv.openStore, REv.attemptWin s e,
        REv.closeStore, REv.logSearching a b] ++
        (l ++ [REv.removeTempDir])) ≤ 1 := by
  simp [peakCount, storeDelta]
  rw [peakCount_append, hn]
  simp [peakCount, storeDelta]
  exact hp

lemma netCount_store_shape (s e a b : Int) (l : List REv)
    (hn : netCount storeDelta l = 0) :
    netCount storeDelta
      ([REv.createTempDir, REv.openStore, REv.attemptWin s e,
        REv.closeStore, REv.logSearching a b] ++
        (l ++ [REv.removeTempDir])) = 0 := by
  rw [netCount_append, netCount_append, hn]
  simp [netCount, storeDelta]

lemma netCount_dir_shape (s e a b : Int) (l : List REv)
    (hn : netCount dirDelta l = 0) :
    netCount dirDelta
      ([REv.createTempDir, REv.openStore, REv.attemptWin s e,
        REv.closeStore, REv.logSearching a b] ++
        (l ++ [REv.removeTempDir])) = 0 := by
  rw [netCount_append, netCount_append, hn]
  norm_num [netCount, dirDelta]

/-- C8 counterexample: with genesis 0 and an all-clean two-window run over
the initial window 50-300, the refined trace shows both temporary-directory
removals happening only after the second window's attempt: the first call's
directory is not released before the recursive call, so two directories are
live at once (dir peak 2), refuting the claim that the temporary directory
is released on every exit path before the return or the recursive call;
the store half does hold there (store peak 1). -/
theorem tempdir_not_released_before_recursion_counterexample :
    (recursiveOpSearchFull 0 cleanEnv 50 300).2 =
      [.createTempDir, .openStore, .attemptWin 50 300, .closeStore,
       .logSearching 0 50, .createTempDir, .openStore,
       .attemptWin (-200) 50, .closeStore, .removeTempDir,
       .removeTempDir] ∧
    REv.removeTempDir ∉ ((recursiveOpSearchFull 0 cleanEnv 50 300).2.take 9) ∧
    peakCount dirDelta 0 (recursiveOpSearchFull 0 cleanEnv 50 300).2 = 2 ∧
    peakCount storeDelta 0 (recursiveOpSearchFull 0 cleanEnv 50 300).2 = 1 := by
  have htrace : (recursiveOpSearchFull 0 cleanEnv 50 300).2 =
      [.createTempDir, .openStore, .attemptWin 50 300, .closeStore,
       .logSearching 0 50, .createTempDir, .openStore,
       .attemptWin (-200) 50, .closeStore, .removeTempDir,
       .removeTempDir] := by
    rw [recursiveOpSearchFull_recurse_step 0 cleanEnv 50 300 rfl rfl rfl rfl
      rfl (by norm_num [InactiveFailureLookbackWindow])]
    norm_num [InactiveFailureLookbackWindow]
    rw [recursiveOpSearchFull_exhaust_step 0 cleanEnv (-200) 50 rfl rfl rfl
      rfl rfl (by norm_num [InactiveFailureLookbackWindow, max_def])]
    norm_num [max_def]
  refine ⟨htrace, ?_, ?_, ?_⟩ <;> rw [htrace] <;> decide

/-- C8 amended: on every exit path each call closes its ephemeral storage
instance before returning or recursing, so at most one store is open at any
instant and every run ends with zero open stores; the temporary directory,
however, is released by the deferred cleanup, which on the recursion path
runs only after the recursive call returns (see the counterexample for the
resulting accumulation), and every run still ends with zero live temporary
directories once the recursion has fully unwound. -/
theorem recursiveOpSearchFull_store_and_dir_lifecycle (g : Int)
    (env : SearchEnv) (s e : Int) :
    peakCount storeDelta 0 (recursiveOpSearchFull g env s e).2 ≤ 1 ∧
    netCount storeDelta (recursiveOpSearchFull g env s e).2 = 0 ∧
    netCount dirDelta (recursiveOpSearchFull g env s e).2 = 0 := by
  induction s, e using recursiveOpSearchFull.induct g env with
  | case1 s e h1 =>
      rw [recursiveOpSearchFull_tempDir_fail_step g env s e
        (by simpa using h1)]
      exact ⟨by simp [peakCount], by simp [netCount], by simp [netCount]⟩
  | case2 s e h1 h2 =>
      rw [recursiveOpSearchFull_dbOpen_fail_step g env s e
        (by simpa using h1) (by simpa using h2)]
      exact ⟨by simp [peakCount, storeDelta], by simp [netCount, storeDelta],
        by simp [netCount, dirDelta]⟩
  | case3 s e h1 h2 h3 =>
      rw [recursiveOpSearchFull_close_fail_step g env s e (by simpa using h1)
        (by simpa using h2) (by simpa using h3)]
      exact ⟨peakCount_store_terminal s e, netCount_store_terminal s e,
        netCount_dir_terminal s e⟩
  | case4 s e h1 h2 h3 h4 =>
      rw [recursiveOpSearchFull_halted_step g env s e (by simpa using h1)
        (by simpa using h2) (by simpa using h3) h4]
      exact ⟨peakCount_store_terminal s e, netCount_store_terminal s e,
        netCount_dir_terminal s e⟩
  | case5 s e h1 h2 h3 h4 h5 =>
      rw [recursiveOpSearchFull_failure_step g env s e none
        (by simpa using h1) (by simpa using h2) (by simpa using h3)
        (by simpa using h4) h5]
      exact ⟨peakCount_store_terminal s e, netCount_store_terminal s e,
        netCount_dir_terminal s e⟩
  | case6 s e h1 h2 h3 h4 b h5 =>
      rw [recursiveOpSearchFull_failure_step g env s e (some b)
        (by simpa using h1) (by simpa using h2) (by simpa using h3)
        (by simpa using h4) h5]
      exact ⟨peakCount_store_terminal s e, netCount_store_terminal s e,
        netCount_dir_terminal s e⟩
  | case7 s e h1 h2 h3 h4 h5 h6 =>
      rw [recursiveOpSearchFull_exhaust_step g env s e (by simpa using h1)
        (by simpa using h2) (by simpa using h3) (by simpa using h4) h5 h6]
      exact ⟨peakCount_store_terminal s e, netCount_store_terminal s e,
        netCount_dir_terminal s e⟩
  | case8 s e h1 h2 h3 h4 h5 h6 ih =>
      rw [recursiveOpSearchFull_recurse_step g env s e (by simpa using h1)
        (by simpa using h2) (by simpa using h3) (by simpa using h4) h5 h6]
      exact ⟨peakCount_store_shape s e _ _ _ ih.1 ih.2.1,
        netCount_store_shape s e _ _ _ ih.2.1,
        netCount_dir_shape s e _ _ _ ih.2.2⟩
